import Mathlib

/-
Verification of the ReAct agent runner (agent_runner.py) and the GitHub PR
tool (github_pr_tool.py). The Python code is embedded shallowly: the two
oracle calls (opper.call for reasoning and for action selection) are modelled
as response streams indexed by step number, tools are functions that either
return a value or raise (Except), and Python dictionaries are association
lists over a JSON-like value type. Tracing, logging and printing have no data
flow into the returned result and are omitted. A Python exception escaping
run_agent is modelled as Except.error; a normal return as Except.ok.
-/

namespace ReactAgent

/-- JSON-like values standing for Python objects (Dict[str, Any] etc.). -/
inductive Value where
  | null
  | bool (b : Bool)
  | int (n : Int)
  | str (s : String)
  | list (xs : List Value)
  | dict (xs : List (String × Value))

/-- Python dictionaries are modelled as association lists; lookup of a key. -/
def dlookup (d : List (String × Value)) (k : String) : Option Value :=
  match d with
  | [] => none
  | (k1, v) :: rest => if k1 = k then some v else dlookup rest k

mutual

/-- Python repr of a value (str() of a container reprs its elements). -/
def pyRepr : Value → String
  | Value.null => "None"
  | Value.bool true => "True"
  | Value.bool false => "False"
  | Value.int n => toString n
  | Value.str s => "\x27" ++ s ++ "\x27"
  | Value.list xs => "[" ++ pyReprItems xs ++ "]"
  | Value.dict xs => "\x7b" ++ pyReprPairs xs ++ "\x7d"

/-- Comma-separated reprs of list elements. -/
def pyReprItems : List Value → String
  | [] => ""
  | [v] => pyRepr v
  | v :: rest => pyRepr v ++ ", " ++ pyReprItems rest

/-- Comma-separated reprs of dict entries. -/
def pyReprPairs : List (String × Value) → String
  | [] => ""
  | [(k, v)] => "\x27" ++ k ++ "\x27: " ++ pyRepr v
  | (k, v) :: rest => "\x27" ++ k ++ "\x27: " ++ pyRepr v ++ ", " ++ pyReprPairs rest

end

/-- Python str() at top level: strings print without quotes. -/
def pyStrTop : Value → String
  | Value.str s => s
  | v => pyRepr v

/-- Python str() of a list of strings, as in list(self.tools.keys()). -/
def pyStrList (xs : List String) : String :=
  "[" ++ String.intercalate ", " (xs.map (fun s => "\x27" ++ s ++ "\x27")) ++ "]"

/-- AgentReasoning model (agent_runner.py lines 23-42): the reasoning
oracle's structured response. Confidence is a rational standing for the
Python float. -/
structure AgentReasoning where
  content : String
  confidence : ℚ

/-- The field validator on AgentReasoning.confidence (lines 36-42): raises
ValueError unless the confidence lies in the closed interval from 0 to 1.
Also matches the Field ge and le constraints. -/
def validate_confidence (v : ℚ) : Except String ℚ :=
  if v < 0 ∨ v > 1 then Except.error "Confidence must be between 0.0 and 1.0"
  else Except.ok v

/-- Validation of a reasoning response, as pydantic performs it inside
opper.call before _react_reasoning returns. A validation failure raises. -/
def validateReasoning (r : AgentReasoning) : Except String AgentReasoning :=
  match validate_confidence r.confidence with
  | Except.error e => Except.error e
  | Except.ok _ => Except.ok r

/-- AgentAction model (agent_runner.py lines 45-55): the decision oracle's
structured response. action_type is an unconstrained string; no validator
restricts it to a tag set. -/
structure AgentAction where
  action_type : String
  tool_name : Option String
  tool_params : Option (List (String × Value))
  output : Option (List (String × Value))

/-- Python `x or {}` on an optional dict: None and the empty dict are falsy,
both yield the empty dict. On association lists some [] and none both give
the empty list, so getD models it exactly. -/
def pyOrEmpty : Option (List (String × Value)) → List (String × Value)
  | none => []
  | some d => d

/-- The context dictionary built at the start of run_agent (lines 109-114)
and mutated across cycles: this is the RunState of the spec. -/
structure RunContext where
  input : List (String × Value)
  thoughts : List Value
  current_step : Nat
  intermediate_results : List (String × Value)
  last_observation : Option String

/-- Initial context of a run (agent_runner.py lines 109-114). The
last_observation key is absent until the first successful tool call. -/
def initContext (input_data : List (String × Value)) : RunContext :=
  { input := input_data, thoughts := [], current_step := 0,
    intermediate_results := [], last_observation := none }

/-- A registered tool: called with a parameter dict, it either returns a
value or raises with a message. -/
def Tool : Type := List (String × Value) → Except String Value

/-- The runner service state: the tool registry (a dict, here an association
list in registration order) and the step budget (15 in __init__, an
attribute that a configuration may set). -/
structure AgentRunnerService where
  tools : List (String × Tool)
  max_steps : Nat

/-- Agent configuration dict: instructions text and the verbose flag
(main.py PR_REVIEW_AGENT). Neither influences the returned result. -/
structure AgentConfig where
  instructions : String
  verbose : Bool

/-- Membership test and lookup in the tool registry (tool_name in self.tools,
then self.tools[tool_name]). -/
def lookupTool : List (String × Tool) → String → Option Tool
  | [], _ => none
  | (k, t) :: rest, nm => if k = nm then some t else lookupTool rest nm

/-- The registered tool names, list(self.tools.keys()). -/
def toolNames (tools : List (String × Tool)) : List String :=
  tools.map Prod.fst

/-- Instrumentation: how many reasoning-oracle calls, decision-oracle calls
and tool invocations a (partial) run performs. -/
structure Counts where
  reasoning_calls : Nat
  action_calls : Nat
  tool_calls : Nat

instance : Add Counts :=
  ⟨fun a b => ⟨a.reasoning_calls + b.reasoning_calls,
               a.action_calls + b.action_calls,
               a.tool_calls + b.tool_calls⟩⟩

/-- Outcome of one iteration of the while loop body: either the function
returns (halt, carrying the returned dict or a raised exception), or control
reaches the end of the body and the loop continues (next). -/
inductive CycleOutcome where
  | halt (result : Except String (List (String × Value)))
      (ctx : RunContext) (counts : Counts)
  | next (ctx : RunContext) (counts : Counts)

/-- One iteration of the while loop of run_agent (agent_runner.py lines
120-227), at entry step counter `step`: increment the counter, call the
reasoning oracle (raising on validation failure), call the decision oracle,
then either return the finish output, return a tool-not-found error dict,
dispatch the tool (returning an error dict if it raises, else folding the
observation into the context), or fall through to the next cycle when the
action_type matches neither branch. The oracle streams rO and aO give the
validated-or-not responses for each step number. -/
def run_cycle (svc : AgentRunnerService) (rO : Nat → AgentReasoning)
    (aO : Nat → AgentAction) (ctx : RunContext) (step : Nat) : CycleOutcome :=
  let step1 := step + 1
  let ctx1 := { ctx with current_step := step1 }
  match validateReasoning (rO step1) with
  | Except.error e => CycleOutcome.halt (Except.error e) ctx1 ⟨1, 0, 0⟩
  | Except.ok _ =>
    let action := aO step1
    if action.action_type = "finish" then
      CycleOutcome.halt (Except.ok (pyOrEmpty action.output)) ctx1 ⟨1, 1, 0⟩
    else
      match action.tool_name with
      | none => CycleOutcome.next ctx1 ⟨1, 1, 0⟩
      | some nm =>
        if action.action_type = "use_tool" ∧ nm ≠ "" then
          match lookupTool svc.tools nm with
          | none =>
            CycleOutcome.halt
              (Except.ok [("error", Value.str ("Tool \x27" ++ nm ++
                "\x27 not found. Available tools: " ++
                pyStrList (toolNames svc.tools)))]) ctx1 ⟨1, 1, 0⟩
          | some tool =>
            match tool (pyOrEmpty action.tool_params) with
            | Except.error e =>
              CycleOutcome.halt
                (Except.ok [("error", Value.str ("Error executing tool " ++
                  nm ++ ": " ++ e))]) ctx1 ⟨1, 1, 1⟩
            | Except.ok res =>
              CycleOutcome.next
                { ctx1 with
                  last_observation := some (pyStrTop res),
                  intermediate_results := ctx1.intermediate_results ++
                    [("step_" ++ toString step1, res)] } ⟨1, 1, 1⟩
        else
          CycleOutcome.next ctx1 ⟨1, 1, 0⟩

/-- Result of a run: the returned dict (or raised exception), the final
context, and the instrumentation counts. -/
structure StepResult where
  result : Except String (List (String × Value))
  context : RunContext
  counts : Counts

/-- The while loop of run_agent with fuel = max_steps minus the entry step
counter: when the guard fails the loop exits and run_agent returns the
step-budget error dict (lines 229-240). -/
def run_steps (svc : AgentRunnerService) (rO : Nat → AgentReasoning)
    (aO : Nat → AgentAction) : Nat → RunContext → Nat → StepResult
  | 0, ctx, _ =>
    ⟨Except.ok [("error", Value.str ("Reached maximum number of steps (" ++
        toString svc.max_steps ++ ")"))], ctx, ⟨0, 0, 0⟩⟩
  | fuel + 1, ctx, step =>
    match run_cycle svc rO aO ctx step with
    | CycleOutcome.halt r ctx1 c => ⟨r, ctx1, c⟩
    | CycleOutcome.next ctx1 c =>
      let rest := run_steps svc rO aO fuel ctx1 (step + 1)
      ⟨rest.result, rest.context, c + rest.counts⟩

/-- run_agent (agent_runner.py lines 92-240): build the initial context from
the input payload and drive the loop from step counter 0. agent_id and the
agent configuration are recorded in tracing only. -/
def run_agent (svc : AgentRunnerService) (agent_id : String)
    (agent : AgentConfig) (input_data : List (String × Value))
    (rO : Nat → AgentReasoning) (aO : Nat → AgentAction) : StepResult :=
  run_steps svc rO aO svc.max_steps (initContext input_data) 0

/-- FinalOutput shape per the AgentOutput model (agent_runner.py lines
58-68) and the spec: review_summary present and non-empty,
overall_assessment present, and no error field. -/
def isFinalOutputShaped (m : List (String × Value)) : Bool :=
  (match dlookup m "review_summary" with
   | some (Value.str s) => s ≠ ""
   | _ => false) &&
  (match dlookup m "overall_assessment" with
   | some (Value.str _) => true
   | _ => false) &&
  (dlookup m "error").isNone

/-- ErrorResult shape: an error field is present. -/
def isErrorShaped (m : List (String × Value)) : Bool :=
  (dlookup m "error").isSome

/-- A failure raised by one of the three HTTP helpers of the GitHub tool:
aiohttp.ClientResponseError with its status and message, or any other
exception with its message. -/
inductive HttpError where
  | clientResponseError (status : Nat) (msg : String)
  | other (msg : String)

/-- The fields of the pull-request JSON that execute reads (_get_pr_info
result): title, user.login, additions, deletions, body (nullable),
html_url, and the private flag read with .get and default False. -/
structure PRInfo where
  title : String
  user_login : String
  additions : Int
  deletions : Int
  body : Option String
  html_url : String
  isPrivate : Bool

/-- One entry of the _get_pr_files result; only the filename is read. -/
structure PRFile where
  filename : String

/-- The GitHub API as seen through the three helpers, each a function of the
owner, repo and pr_number parameter values that returns data or raises. -/
structure GitHubEnv where
  pr_info : Value → Value → Value → Except HttpError PRInfo
  pr_files : Value → Value → Value → Except HttpError (List PRFile)
  pr_diff : Value → Value → Value → Except HttpError String

/-- Substring containment, as the Python `in` on strings. -/
def containsSub (hay needle : String) : Bool :=
  (hay.splitOn needle).length > 1

/-- _truncate_diff (github_pr_tool.py lines 160-164). -/
def truncate_diff (diff : String) : String :=
  if diff.length > 50000 then
    (diff.take 50000) ++ "\n... (diff truncated for length)"
  else diff

/-- Python f-string rendering of params.get(key, default-empty-string). -/
def paramStr (params : List (String × Value)) (k : String) : String :=
  pyStrTop ((dlookup params k).getD (Value.str ""))

/-- The error dict built by the two except clauses of execute (github
pr_tool.py lines 108-129): ClientResponseError gets the 404 and
rate-limit special cases, every other exception the generic wrapper. -/
def httpErrorResult (params : List (String × Value)) : HttpError →
    List (String × Value)
  | HttpError.clientResponseError status msg =>
    let m :=
      if status = 404 then
        "PR not found: " ++ paramStr params "owner" ++ "/" ++
          paramStr params "repo" ++ "#" ++ paramStr params "pr_number"
      else if status = 403 ∧ containsSub msg.toLower "rate limit exceeded" then
        "GitHub API rate limit exceeded. Consider adding authentication for higher limits."
      else msg
    [("error", Value.str m), ("status", Value.str "error")]
  | HttpError.other msg =>
    [("error", Value.str ("Error retrieving PR information: " ++ msg)),
     ("status", Value.str "error")]

namespace GitHubPRTool

/-- GitHubPRTool.execute (github_pr_tool.py lines 49-129). authorized is
whether a github_token was given at construction (the Authorization header
is present). Every branch, including every caught exception, returns a
dict; span updates are tracing only. -/
def execute (authorized : Bool) (env : GitHubEnv)
    (params : List (String × Value)) : List (String × Value) :=
  let missing := ["owner", "repo", "pr_number"].filter
    (fun p => (dlookup params p).isNone)
  if missing ≠ [] then
    [("error", Value.str ("Missing required parameters: " ++
        String.intercalate ", " missing ++
        ". Please provide owner, repo, and pr_number.")),
     ("status", Value.str "error")]
  else
    let owner := (dlookup params "owner").getD Value.null
    let repo := (dlookup params "repo").getD Value.null
    let prn := (dlookup params "pr_number").getD Value.null
    match env.pr_info owner repo prn with
    | Except.error e => httpErrorResult params e
    | Except.ok info =>
      if info.isPrivate ∧ ¬ authorized then
        [("error", Value.str "This is a private repository. A GitHub token is required for access."),
         ("status", Value.str "error")]
      else
        match env.pr_files owner repo prn with
        | Except.error e => httpErrorResult params e
        | Except.ok files =>
          match env.pr_diff owner repo prn with
          | Except.error e => httpErrorResult params e
          | Except.ok diff =>
            [("pr_title", Value.str info.title),
             ("pr_author", Value.str info.user_login),
             ("changed_files", Value.list (files.map
                (fun f => Value.str f.filename))),
             ("additions", Value.int info.additions),
             ("deletions", Value.int info.deletions),
             ("diff", Value.str (truncate_diff diff)),
             ("pr_description", Value.str (info.body.getD "")),
             ("pr_url", Value.str info.html_url),
             ("repository_private", Value.bool info.isPrivate),
             ("status", Value.str "success")]

end GitHubPRTool

/-- The GitHub PR tool as registered in the runner (main.py registers
pr_tool.execute under the name github_pr_tool): an awaited call that
returns the dict execute built and never raises. -/
def githubTool (authorized : Bool) (env : GitHubEnv) : Tool :=
  fun params => Except.ok (Value.dict (GitHubPRTool.execute authorized env params))

/-- A reasoning-oracle stream answering every step with the same
confidence. -/
def constReasoning (q : ℚ) : Nat → AgentReasoning :=
  fun _ => ⟨"analysis of the current state", q⟩

/-- A decision-oracle stream that always finishes with the given output. -/
def finishAction (out : Option (List (String × Value))) : Nat → AgentAction :=
  fun _ => ⟨"finish", none, none, out⟩

/-- A decision-oracle stream that always selects the named tool with an
empty parameter dict. -/
def useToolAction (nm : String) : Nat → AgentAction :=
  fun _ => ⟨"use_tool", some nm, none, none⟩

/-- A decision-oracle stream whose first response carries an unrecognized
action_type and whose later responses finish. -/
def mixedActions (out : List (String × Value)) : Nat → AgentAction :=
  fun k => if k = 1 then ⟨"explore", none, none, none⟩
           else ⟨"finish", none, none, some out⟩

/-- A service with no registered tools and the default budget of 15. -/
def emptyService : AgentRunnerService := ⟨[], 15⟩

/-- A service with a single registered tool and the given budget. -/
def svcWithTool (nm : String) (t : Tool) (ms : Nat) : AgentRunnerService :=
  ⟨[(nm, t)], ms⟩

/-- A tool that always returns normally. -/
def okTool : Tool := fun _ => Except.ok (Value.str "tool result")

/-- A tool that always raises with the given message. -/
def failTool (msg : String) : Tool := fun _ => Except.error msg

/-- The finish output of the spec scenario: review summary ok, overall
assessment good. -/
def demoOutput : List (String × Value) :=
  [("review_summary", Value.str "ok"), ("overall_assessment", Value.str "good")]

/-- A fixed agent configuration for concrete runs. -/
def defaultAgent : AgentConfig := ⟨"review the PR", false⟩

/-- A GitHub API environment in which every HTTP helper raises. -/
def failingEnv : GitHubEnv :=
  ⟨fun _ _ _ => Except.error (HttpError.other "boom"),
   fun _ _ _ => Except.error (HttpError.other "boom"),
   fun _ _ _ => Except.error (HttpError.other "boom")⟩

/-- Validation accepts a confidence inside the closed unit interval. -/
theorem validateReasoning_ok (r : AgentReasoning)
    (h : 0 ≤ r.confidence ∧ r.confidence ≤ 1) :
    validateReasoning r = Except.ok r := by
  have h1 : ¬ (r.confidence < 0 ∨ r.confidence > 1) := by
    push_neg
    exact ⟨h.1, h.2⟩
  simp [validateReasoning, validate_confidence, h1]

/-- Validation raises on a confidence outside the closed unit interval. -/
theorem validateReasoning_err (r : AgentReasoning)
    (h : r.confidence < 0 ∨ 1 < r.confidence) :
    validateReasoning r = Except.error "Confidence must be between 0.0 and 1.0" := by
  have h1 : r.confidence < 0 ∨ r.confidence > 1 := h
  simp [validateReasoning, validate_confidence, h1]

/-- A cycle whose reasoning response fails validation raises immediately:
the decision oracle and the tools are never consulted. -/
theorem run_cycle_raise (svc : AgentRunnerService) (rO : Nat → AgentReasoning)
    (aO : Nat → AgentAction) (ctx : RunContext) (step : Nat)
    (hv : (rO (step + 1)).confidence < 0 ∨ 1 < (rO (step + 1)).confidence) :
    run_cycle svc rO aO ctx step =
      CycleOutcome.halt (Except.error "Confidence must be between 0.0 and 1.0")
        { ctx with current_step := step + 1 } ⟨1, 0, 0⟩ := by
  simp [run_cycle, validateReasoning_err _ hv]

/-- A cycle whose action is finish halts with the action's output dict
(empty when absent), after one reasoning and one decision call. -/
theorem run_cycle_finish (svc : AgentRunnerService) (rO : Nat → AgentReasoning)
    (aO : Nat → AgentAction) (ctx : RunContext) (step : Nat)
    (hv : 0 ≤ (rO (step + 1)).confidence ∧ (rO (step + 1)).confidence ≤ 1)
    (hty : (aO (step + 1)).action_type = "finish") :
    run_cycle svc rO aO ctx step =
      CycleOutcome.halt (Except.ok (pyOrEmpty (aO (step + 1)).output))
        { ctx with current_step := step + 1 } ⟨1, 1, 0⟩ := by
  simp [run_cycle, validateReasoning_ok _ hv, hty]

/-- A cycle selecting an unregistered tool halts with the error dict whose
message lists the registered tool names. -/
theorem run_cycle_notfound (svc : AgentRunnerService) (rO : Nat → AgentReasoning)
    (aO : Nat → AgentAction) (ctx : RunContext) (step : Nat) (nm : String)
    (hv : 0 ≤ (rO (step + 1)).confidence ∧ (rO (step + 1)).confidence ≤ 1)
    (hty : (aO (step + 1)).action_type = "use_tool")
    (hnm : (aO (step + 1)).tool_name = some nm)
    (hne : ¬ nm = "")
    (hlook : lookupTool svc.tools nm = none) :
    run_cycle svc rO aO ctx step =
      CycleOutcome.halt (Except.ok [("error", Value.str ("Tool \x27" ++ nm ++
          "\x27 not found. Available tools: " ++
          pyStrList (toolNames svc.tools)))])
        { ctx with current_step := step + 1 } ⟨1, 1, 0⟩ := by
  simp [run_cycle, validateReasoning_ok _ hv, hty, hnm, hne, hlook]

/-- A cycle whose registered tool raises halts with the error dict that
wraps the tool name and the original message. -/
theorem run_cycle_toolerr (svc : AgentRunnerService) (rO : Nat → AgentReasoning)
    (aO : Nat → AgentAction) (ctx : RunContext) (step : Nat) (nm : String)
    (f : Tool) (e : String)
    (hv : 0 ≤ (rO (step + 1)).confidence ∧ (rO (step + 1)).confidence ≤ 1)
    (hty : (aO (step + 1)).action_type = "use_tool")
    (hnm : (aO (step + 1)).tool_name = some nm)
    (hne : ¬ nm = "")
    (hlook : lookupTool svc.tools nm = some f)
    (hf : f (pyOrEmpty (aO (step + 1)).tool_params) = Except.error e) :
    run_cycle svc rO aO ctx step =
      CycleOutcome.halt (Except.ok [("error",
          Value.str ("Error executing tool " ++ nm ++ ": " ++ e))])
        { ctx with current_step := step + 1 } ⟨1, 1, 1⟩ := by
  simp [run_cycle, validateReasoning_ok _ hv, hty, hnm, hne, hlook, hf]

/-- A cycle whose registered tool returns a value continues to the next
cycle with the observation and the per-step result folded into the context. -/
theorem run_cycle_tool_ok (svc : AgentRunnerService) (rO : Nat → AgentReasoning)
    (aO : Nat → AgentAction) (ctx : RunContext) (step : Nat) (nm : String)
    (f : Tool) (v : Value)
    (hv : 0 ≤ (rO (step + 1)).confidence ∧ (rO (step + 1)).confidence ≤ 1)
    (hty : (aO (step + 1)).action_type = "use_tool")
    (hnm : (aO (step + 1)).tool_name = some nm)
    (hne : ¬ nm = "")
    (hlook : lookupTool svc.tools nm = some f)
    (hf : f (pyOrEmpty (aO (step + 1)).tool_params) = Except.ok v) :
    run_cycle svc rO aO ctx step =
      CycleOutcome.next
        { ctx with
          current_step := step + 1
          last_observation := some (pyStrTop v)
          intermediate_results := ctx.intermediate_results ++
            [("step_" ++ toString (step + 1), v)] } ⟨1, 1, 1⟩ := by
  simp [run_cycle, validateReasoning_ok _ hv, hty, hnm, hne, hlook, hf]

/-- A cycle whose action matches neither branch (action_type neither finish
nor a use_tool with a truthy tool name) performs no action and silently
continues to the next cycle. -/
theorem run_cycle_fallthrough (svc : AgentRunnerService)
    (rO : Nat → AgentReasoning) (aO : Nat → AgentAction) (ctx : RunContext)
    (step : Nat)
    (hv : 0 ≤ (rO (step + 1)).confidence ∧ (rO (step + 1)).confidence ≤ 1)
    (hty : (aO (step + 1)).action_type ≠ "finish")
    (hno : (aO (step + 1)).action_type ≠ "use_tool" ∨
           (aO (step + 1)).tool_name = none ∨
           (aO (step + 1)).tool_name = some "") :
    run_cycle svc rO aO ctx step =
      CycleOutcome.next { ctx with current_step := step + 1 } ⟨1, 1, 0⟩ := by
  rcases hno with hno | hno | hno
  · rcases h1 : (aO (step + 1)).tool_name with _ | nm
    · simp [run_cycle, validateReasoning_ok _ hv, hty, h1]
    · simp [run_cycle, validateReasoning_ok _ hv, hty, h1, hno]
  · simp [run_cycle, validateReasoning_ok _ hv, hty, hno]
  · simp [run_cycle, validateReasoning_ok _ hv, hty, hno]

/-- Unfolding of the loop when the cycle halts. -/
theorem run_steps_succ_halt (svc : AgentRunnerService)
    (rO : Nat → AgentReasoning) (aO : Nat → AgentAction) (fuel : Nat)
    (ctx : RunContext) (step : Nat) (r : Except String (List (String × Value)))
    (ctx1 : RunContext) (c : Counts)
    (h : run_cycle svc rO aO ctx step = CycleOutcome.halt r ctx1 c) :
    run_steps svc rO aO (fuel + 1) ctx step = ⟨r, ctx1, c⟩ := by
  simp [run_steps, h]

/-- Every halt of a cycle with a validated reasoning response returns
normally, and the returned dict either carries an error field (tool not
found, tool raised) or is the finish output taken verbatim. -/
theorem run_cycle_halt_char (svc : AgentRunnerService)
    (rO : Nat → AgentReasoning) (aO : Nat → AgentAction) (ctx : RunContext)
    (step : Nat) (r : Except String (List (String × Value)))
    (ctx1 : RunContext) (c : Counts)
    (hv : 0 ≤ (rO (step + 1)).confidence ∧ (rO (step + 1)).confidence ≤ 1)
    (h : run_cycle svc rO aO ctx step = CycleOutcome.halt r ctx1 c) :
    ∃ m, r = Except.ok m ∧
      ((dlookup m "error").isSome = true ∨
       ((aO (step + 1)).action_type = "finish" ∧
        m = pyOrEmpty (aO (step + 1)).output)) := by
  by_cases hty : (aO (step + 1)).action_type = "finish"
  · rw [run_cycle_finish svc rO aO ctx step hv hty] at h
    cases h
    exact ⟨_, rfl, Or.inr ⟨hty, rfl⟩⟩
  · rcases hnm : (aO (step + 1)).tool_name with _ | nm
    · rw [run_cycle_fallthrough svc rO aO ctx step hv hty
        (Or.inr (Or.inl hnm))] at h
      cases h
    · by_cases huse : (aO (step + 1)).action_type = "use_tool" ∧ nm ≠ ""
      · rcases hlook : lookupTool svc.tools nm with _ | f
        · rw [run_cycle_notfound svc rO aO ctx step nm hv huse.1 hnm
            huse.2 hlook] at h
          cases h
          exact ⟨_, rfl, Or.inl (by simp [dlookup])⟩
        · cases hf : f (pyOrEmpty (aO (step + 1)).tool_params) with
          | error e =>
            rw [run_cycle_toolerr svc rO aO ctx step nm f e hv huse.1 hnm
              huse.2 hlook hf] at h
            cases h
            exact ⟨_, rfl, Or.inl (by simp [dlookup])⟩
          | ok v =>
            rw [run_cycle_tool_ok svc rO aO ctx step nm f v hv huse.1 hnm
              huse.2 hlook hf] at h
            cases h
      · have hside : (aO (step + 1)).action_type ≠ "use_tool" ∨
            (aO (step + 1)).tool_name = none ∨
            (aO (step + 1)).tool_name = some "" := by
          by_cases h1 : (aO (step + 1)).action_type = "use_tool"
          · refine Or.inr (Or.inr ?_)
            have h2 : nm = "" := by
              by_contra hne
              exact huse ⟨h1, hne⟩
            rw [hnm, h2]
          · exact Or.inl h1
        rw [run_cycle_fallthrough svc rO aO ctx step hv hty hside] at h
        cases h

/-- One cycle run from two different contexts takes the same branch: it
halts with the same result and counts, or continues with the same counts.
The context influences only what is folded back into the context. -/
theorem run_cycle_cases (svc : AgentRunnerService) (rO : Nat → AgentReasoning)
    (aO : Nat → AgentAction) (step : Nat) (ctx ctx' : RunContext) :
    (∃ r c ctx1 ctx1', run_cycle svc rO aO ctx step = CycleOutcome.halt r ctx1 c ∧
        run_cycle svc rO aO ctx' step = CycleOutcome.halt r ctx1' c) ∨
    (∃ c ctx1 ctx1', run_cycle svc rO aO ctx step = CycleOutcome.next ctx1 c ∧
        run_cycle svc rO aO ctx' step = CycleOutcome.next ctx1' c) := by
  by_cases hv : 0 ≤ (rO (step + 1)).confidence ∧ (rO (step + 1)).confidence ≤ 1
  · by_cases hty : (aO (step + 1)).action_type = "finish"
    · exact Or.inl ⟨_, _, _, _, run_cycle_finish svc rO aO ctx step hv hty,
        run_cycle_finish svc rO aO ctx' step hv hty⟩
    · rcases hnm : (aO (step + 1)).tool_name with _ | nm
      · exact Or.inr ⟨_, _, _,
          run_cycle_fallthrough svc rO aO ctx step hv hty (Or.inr (Or.inl hnm)),
          run_cycle_fallthrough svc rO aO ctx' step hv hty (Or.inr (Or.inl hnm))⟩
      · by_cases huse : (aO (step + 1)).action_type = "use_tool" ∧ nm ≠ ""
        · rcases hlook : lookupTool svc.tools nm with _ | f
          · exact Or.inl ⟨_, _, _, _,
              run_cycle_notfound svc rO aO ctx step nm hv huse.1 hnm huse.2 hlook,
              run_cycle_notfound svc rO aO ctx' step nm hv huse.1 hnm huse.2 hlook⟩
          · cases hf : f (pyOrEmpty (aO (step + 1)).tool_params) with
            | error e =>
              exact Or.inl ⟨_, _, _, _,
                run_cycle_toolerr svc rO aO ctx step nm f e hv huse.1 hnm
                  huse.2 hlook hf,
                run_cycle_toolerr svc rO aO ctx' step nm f e hv huse.1 hnm
                  huse.2 hlook hf⟩
            | ok v =>
              exact Or.inr ⟨_, _, _,
                run_cycle_tool_ok svc rO aO ctx step nm f v hv huse.1 hnm
                  huse.2 hlook hf,
                run_cycle_tool_ok svc rO aO ctx' step nm f v hv huse.1 hnm
                  huse.2 hlook hf⟩
        · have hside : (aO (step + 1)).action_type ≠ "use_tool" ∨
              (aO (step + 1)).tool_name = none ∨
              (aO (step + 1)).tool_name = some "" := by
            by_cases h1 : (aO (step + 1)).action_type = "use_tool"
            · refine Or.inr (Or.inr ?_)
              have h2 : nm = "" := by
                by_contra hne
                exact huse ⟨h1, hne⟩
              rw [hnm, h2]
            · exact Or.inl h1
          exact Or.inr ⟨_, _, _,
            run_cycle_fallthrough svc rO aO ctx step hv hty hside,
            run_cycle_fallthrough svc rO aO ctx' step hv hty hside⟩
  · have hbad : (rO (step + 1)).confidence < 0 ∨ 1 < (rO (step + 1)).confidence := by
      rcases not_and_or.mp hv with h1 | h1
      · exact Or.inl (not_le.mp h1)
      · exact Or.inr (not_le.mp h1)
    exact Or.inl ⟨_, _, _, _, run_cycle_raise svc rO aO ctx step hbad,
      run_cycle_raise svc rO aO ctx' step hbad⟩

/-- Unfolding of the loop when the cycle continues. -/
theorem run_steps_succ_next (svc : AgentRunnerService)
    (rO : Nat → AgentReasoning) (aO : Nat → AgentAction) (fuel : Nat)
    (ctx : RunContext) (step : Nat) (ctx1 : RunContext) (c : Counts)
    (h : run_cycle svc rO aO ctx step = CycleOutcome.next ctx1 c) :
    run_steps svc rO aO (fuel + 1) ctx step =
      ⟨(run_steps svc rO aO fuel ctx1 (step + 1)).result,
       (run_steps svc rO aO fuel ctx1 (step + 1)).context,
       c + (run_steps svc rO aO fuel ctx1 (step + 1)).counts⟩ := by
  simp [run_steps, h]

/-- The returned result and the call counts of the loop do not depend on
the context it starts from: the context is only written, never read, by
the control flow (it is read only by the oracles, whose responses are the
fixed streams). -/
theorem run_steps_ctx_irrel (svc : AgentRunnerService)
    (rO : Nat → AgentReasoning) (aO : Nat → AgentAction) :
    ∀ fuel step ctx ctx',
      (run_steps svc rO aO fuel ctx step).result =
        (run_steps svc rO aO fuel ctx' step).result ∧
      (run_steps svc rO aO fuel ctx step).counts =
        (run_steps svc rO aO fuel ctx' step).counts := by
  intro fuel
  induction fuel with
  | zero => exact fun step ctx ctx' => ⟨rfl, rfl⟩
  | succ n ih =>
    intro step ctx ctx'
    rcases run_cycle_cases svc rO aO step ctx ctx' with
      ⟨r, c, ctx1, ctx1', h1, h2⟩ | ⟨c, ctx1, ctx1', h1, h2⟩
    · rw [run_steps_succ_halt svc rO aO n ctx step r ctx1 c h1,
        run_steps_succ_halt svc rO aO n ctx' step r ctx1' c h2]
      exact ⟨rfl, rfl⟩
    · rw [run_steps_succ_next svc rO aO n ctx step ctx1 c h1,
        run_steps_succ_next svc rO aO n ctx' step ctx1' c h2]
      obtain ⟨hres, hcnt⟩ := ih (step + 1) ctx1 ctx1'
      exact ⟨hres, by rw [show ((⟨(run_steps svc rO aO n ctx1 (step+1)).result,
        (run_steps svc rO aO n ctx1 (step+1)).context,
        c + (run_steps svc rO aO n ctx1 (step+1)).counts⟩ : StepResult)).counts =
          c + (run_steps svc rO aO n ctx1 (step+1)).counts from rfl, hcnt]⟩

/-- Under validated reasoning responses, the loop always returns normally,
and the returned dict either carries an error field or is the output of
some finish action taken verbatim. -/
theorem run_steps_ok_char (svc : AgentRunnerService)
    (rO : Nat → AgentReasoning) (aO : Nat → AgentAction)
    (hval : ∀ k, 0 ≤ (rO k).confidence ∧ (rO k).confidence ≤ 1) :
    ∀ fuel ctx step, ∃ m,
      (run_steps svc rO aO fuel ctx step).result = Except.ok m ∧
      ((dlookup m "error").isSome = true ∨
       ∃ k, (aO k).action_type = "finish" ∧ m = pyOrEmpty (aO k).output) := by
  intro fuel
  induction fuel with
  | zero =>
    intro ctx step
    exact ⟨_, rfl, Or.inl (by simp [dlookup])⟩
  | succ n ih =>
    intro ctx step
    cases hc : run_cycle svc rO aO ctx step with
    | halt r ctx1 c =>
      rw [run_steps_succ_halt svc rO aO n ctx step r ctx1 c hc]
      obtain ⟨m, hm, hshape⟩ :=
        run_cycle_halt_char svc rO aO ctx step r ctx1 c (hval (step + 1)) hc
      exact ⟨m, hm, hshape.imp id (fun hf => ⟨step + 1, hf⟩)⟩
    | next ctx1 c =>
      rw [run_steps_succ_next svc rO aO n ctx step ctx1 c hc]
      obtain ⟨m, hm, hshape⟩ := ih ctx1 (step + 1)
      exact ⟨m, hm, hshape⟩

/-- When every cycle runs a registered tool that returns normally, the loop
spends its whole fuel, one reasoning call, one decision call and one tool
invocation per cycle, sets the step counter past every cycle, and exits
with the step-budget error dict naming the configured maximum. -/
theorem run_steps_budget (svc : AgentRunnerService)
    (rO : Nat → AgentReasoning) (aO : Nat → AgentAction) (nm : String) (f : Tool)
    (hval : ∀ k, 0 ≤ (rO k).confidence ∧ (rO k).confidence ≤ 1)
    (hty : ∀ k, (aO k).action_type = "use_tool")
    (hnm : ∀ k, (aO k).tool_name = some nm)
    (hne : ¬ nm = "")
    (hlook : lookupTool svc.tools nm = some f)
    (hf : ∀ p, ∃ v, f p = Except.ok v) :
    ∀ fuel ctx step,
      (run_steps svc rO aO fuel ctx step).result =
        Except.ok [("error", Value.str ("Reached maximum number of steps (" ++
          toString svc.max_steps ++ ")"))] ∧
      (run_steps svc rO aO fuel ctx step).counts = ⟨fuel, fuel, fuel⟩ ∧
      (1 ≤ fuel → (run_steps svc rO aO fuel ctx step).context.current_step =
        step + fuel) := by
  intro fuel
  induction fuel with
  | zero =>
    intro ctx step
    exact ⟨rfl, rfl, fun h => absurd h (by omega)⟩
  | succ n ih =>
    intro ctx step
    obtain ⟨v, hv⟩ := hf (pyOrEmpty (aO (step + 1)).tool_params)
    have hc := run_cycle_tool_ok svc rO aO ctx step nm f v (hval (step + 1))
      (hty (step + 1)) (hnm (step + 1)) hne hlook hv
    rw [run_steps_succ_next svc rO aO n ctx step _ _ hc]
    obtain ⟨hres, hcnt, hstep⟩ := ih
      { ctx with
        current_step := step + 1
        last_observation := some (pyStrTop v)
        intermediate_results := ctx.intermediate_results ++
          [("step_" ++ toString (step + 1), v)] } (step + 1)
    refine ⟨hres, ?_, ?_⟩
    · show (⟨1, 1, 1⟩ : Counts) + _ = _
      rw [hcnt]
      show Counts.mk (1 + n) (1 + n) (1 + n) = Counts.mk (n + 1) (n + 1) (n + 1)
      rw [Nat.add_comm 1 n]
    · intro _
      show (run_steps svc rO aO n _ (step + 1)).context.current_step = step + (n + 1)
      cases n with
      | zero => rfl
      | succ k =>
        rw [hstep (by omega)]
        omega

/-- Both except clauses of GitHubPRTool.execute build a dict carrying an
error message and status error. -/
theorem httpErrorResult_shape (params : List (String × Value)) (e : HttpError) :
    dlookup (httpErrorResult params e) "status" = some (Value.str "error") ∧
    (dlookup (httpErrorResult params e) "error").isSome = true := by
  cases e <;> simp [httpErrorResult, dlookup]

/-- GitHubPRTool.execute always returns a dict, and that dict either has
status error together with an error field, or status success with no error
field. No branch raises. -/
theorem execute_shape (authorized : Bool) (env : GitHubEnv)
    (params : List (String × Value)) :
    (dlookup (GitHubPRTool.execute authorized env params) "status" =
        some (Value.str "error") ∧
      (dlookup (GitHubPRTool.execute authorized env params) "error").isSome = true) ∨
    (dlookup (GitHubPRTool.execute authorized env params) "status" =
        some (Value.str "success") ∧
      dlookup (GitHubPRTool.execute authorized env params) "error" = none) := by
  simp only [GitHubPRTool.execute]
  split
  · exact Or.inl ⟨by simp [dlookup], by simp [dlookup]⟩
  · split
    · exact Or.inl (httpErrorResult_shape _ _)
    · split
      · exact Or.inl ⟨by simp [dlookup], by simp [dlookup]⟩
      · split
        · exact Or.inl (httpErrorResult_shape _ _)
        · split
          · exact Or.inl (httpErrorResult_shape _ _)
          · exact Or.inr ⟨by simp [dlookup], by simp [dlookup]⟩

/-- C1, counterexample: run_agent does not keep every failure inside its
boundary. With a reasoning response of confidence 2 on the first cycle the
validation failure raises past run_agent (the run ends in a raised
exception, not an ErrorResult mapping): there is no try block around the
oracle calls in agent_runner.py. -/
theorem claim_c1_counterexample :
    (run_agent emptyService "agent-1" defaultAgent [] (constReasoning 2)
      (finishAction (some demoOutput))).result =
      Except.error "Confidence must be between 0.0 and 1.0" := rfl

/-- C1, amended: as long as every reasoning-oracle response passes
validation, run_agent returns a structured mapping on every path (tool not
found, tool exception, step-budget exhaustion, finish) and never raises;
an oracle validation failure, however, escapes as an exception. -/
theorem claim_c1_no_raise (svc : AgentRunnerService) (agent_id : String)
    (agent : AgentConfig) (input : List (String × Value))
    (rO : Nat → AgentReasoning) (aO : Nat → AgentAction)
    (hval : ∀ k, 0 ≤ (rO k).confidence ∧ (rO k).confidence ≤ 1) :
    ∃ m, (run_agent svc agent_id agent input rO aO).result = Except.ok m := by
  obtain ⟨m, hm, _⟩ := run_steps_ok_char svc rO aO hval svc.max_steps
    (initContext input) 0
  exact ⟨m, hm⟩

/-- C1, witness: a concrete run with valid confidences returns a mapping. -/
theorem claim_c1_witness :
    ∃ m, (run_agent emptyService "agent-1" defaultAgent [] (constReasoning 1)
      (finishAction (some demoOutput))).result = Except.ok m :=
  claim_c1_no_raise emptyService "agent-1" defaultAgent [] (constReasoning 1)
    (finishAction (some demoOutput)) (fun _ => ⟨by simp [constReasoning], by simp [constReasoning]⟩)

/-- C2, counterexample: a run can return a value that is neither
FinalOutput-shaped nor ErrorResult-shaped. A finish action with no output
field makes run_agent return the empty mapping, which has no error field,
no review summary and no overall assessment. -/
theorem claim_c2_counterexample :
    (run_agent emptyService "agent-1" defaultAgent [] (constReasoning 1)
      (finishAction none)).result = Except.ok ([] : List (String × Value)) ∧
    isFinalOutputShaped [] = false ∧ isErrorShaped [] = false :=
  ⟨rfl, rfl, rfl⟩

/-- C2, amended: when run_agent returns (no oracle validation failure
raised), the returned mapping is either ErrorResult-shaped (error field
present) or is some finish action's output taken verbatim — which is not
validated against the FinalOutput schema and may be empty or lack the
required fields, so the two-shape dichotomy does not hold. -/
theorem claim_c2_result_shape (svc : AgentRunnerService) (agent_id : String)
    (agent : AgentConfig) (input : List (String × Value))
    (rO : Nat → AgentReasoning) (aO : Nat → AgentAction)
    (m : List (String × Value))
    (hval : ∀ k, 0 ≤ (rO k).confidence ∧ (rO k).confidence ≤ 1)
    (hm : (run_agent svc agent_id agent input rO aO).result = Except.ok m) :
    isErrorShaped m = true ∨
      ∃ k, (aO k).action_type = "finish" ∧ m = pyOrEmpty (aO k).output := by
  obtain ⟨m', hm', hshape⟩ := run_steps_ok_char svc rO aO hval svc.max_steps
    (initContext input) 0
  unfold run_agent at hm
  rw [hm] at hm'
  cases hm'
  exact hshape

/-- C2, witness: the amended claim at the concrete run that returns the
empty mapping (a finish action with no output). -/
theorem claim_c2_witness :
    isErrorShaped [] = true ∨
      ∃ k, ((finishAction none) k).action_type = "finish" ∧
        ([] : List (String × Value)) = pyOrEmpty ((finishAction none) k).output :=
  claim_c2_result_shape emptyService "agent-1" defaultAgent []
    (constReasoning 1) (finishAction none) []
    (fun _ => ⟨by simp [constReasoning], by simp [constReasoning]⟩) rfl

/-- C3: with max_steps three and a decision oracle that selects a
registered, non-raising tool on every cycle, the run performs exactly
three reason-decide-act cycles (three reasoning calls, three decision
calls, three tool invocations, step counter ending at three) and then
returns the step-budget ErrorResult naming the configured maximum. -/
theorem claim_c3_step_budget (svc : AgentRunnerService) (agent_id : String)
    (agent : AgentConfig) (input : List (String × Value))
    (rO : Nat → AgentReasoning) (aO : Nat → AgentAction) (nm : String) (f : Tool)
    (hval : ∀ k, 0 ≤ (rO k).confidence ∧ (rO k).confidence ≤ 1)
    (hty : ∀ k, (aO k).action_type = "use_tool")
    (hnm : ∀ k, (aO k).tool_name = some nm)
    (hne : ¬ nm = "")
    (hlook : lookupTool svc.tools nm = some f)
    (hf : ∀ p, ∃ v, f p = Except.ok v)
    (hms : svc.max_steps = 3) :
    (run_agent svc agent_id agent input rO aO).result =
      Except.ok [("error", Value.str "Reached maximum number of steps (3)")] ∧
    (run_agent svc agent_id agent input rO aO).counts = ⟨3, 3, 3⟩ ∧
    (run_agent svc agent_id agent input rO aO).context.current_step = 3 := by
  have h := run_steps_budget svc rO aO nm f hval hty hnm hne hlook hf
    svc.max_steps (initContext input) 0
  rw [hms] at h
  obtain ⟨hres, hcnt, hstep⟩ := h
  unfold run_agent
  rw [hms]
  exact ⟨hres, hcnt, hstep (by omega)⟩

/-- C3, witness: the concrete three-step run against an always-returning
registered tool. -/
theorem claim_c3_witness :
    (run_agent (svcWithTool "t" okTool 3) "agent-1" defaultAgent []
      (constReasoning 1) (useToolAction "t")).result =
      Except.ok [("error", Value.str "Reached maximum number of steps (3)")] ∧
    (run_agent (svcWithTool "t" okTool 3) "agent-1" defaultAgent []
      (constReasoning 1) (useToolAction "t")).counts = ⟨3, 3, 3⟩ ∧
    (run_agent (svcWithTool "t" okTool 3) "agent-1" defaultAgent []
      (constReasoning 1) (useToolAction "t")).context.current_step = 3 :=
  claim_c3_step_budget (svcWithTool "t" okTool 3) "agent-1" defaultAgent []
    (constReasoning 1) (useToolAction "t") "t" okTool
    (fun _ => ⟨by simp [constReasoning], by simp [constReasoning]⟩) (fun _ => rfl) (fun _ => rfl)
    (by decide) rfl (fun _ => ⟨Value.str "tool result", rfl⟩) rfl

/-- C4: a cycle whose registered tool raises terminates the run with the
ErrorResult wrapping the tool name and the original message, after exactly
this one cycle, and leaves the last observation and the per-step
intermediate results of the context untouched. -/
theorem claim_c4_tool_exception (svc : AgentRunnerService)
    (rO : Nat → AgentReasoning) (aO : Nat → AgentAction) (fuel : Nat)
    (ctx : RunContext) (step : Nat) (nm : String) (f : Tool) (e : String)
    (hv : 0 ≤ (rO (step + 1)).confidence ∧ (rO (step + 1)).confidence ≤ 1)
    (hty : (aO (step + 1)).action_type = "use_tool")
    (hnm : (aO (step + 1)).tool_name = some nm)
    (hne : ¬ nm = "")
    (hlook : lookupTool svc.tools nm = some f)
    (hf : f (pyOrEmpty (aO (step + 1)).tool_params) = Except.error e) :
    (run_steps svc rO aO (fuel + 1) ctx step).result =
      Except.ok [("error",
        Value.str ("Error executing tool " ++ nm ++ ": " ++ e))] ∧
    (run_steps svc rO aO (fuel + 1) ctx step).context.last_observation =
      ctx.last_observation ∧
    (run_steps svc rO aO (fuel + 1) ctx step).context.intermediate_results =
      ctx.intermediate_results ∧
    (run_steps svc rO aO (fuel + 1) ctx step).counts = ⟨1, 1, 1⟩ := by
  rw [run_steps_succ_halt svc rO aO fuel ctx step _ _ _
    (run_cycle_toolerr svc rO aO ctx step nm f e hv hty hnm hne hlook hf)]
  exact ⟨rfl, rfl, rfl, rfl⟩

/-- C4, witness: the concrete run whose only tool raises with message
boom terminates with the wrapped message and an unchanged observation
state. -/
theorem claim_c4_witness :
    (run_steps (svcWithTool "t" (failTool "boom") 5) (constReasoning 1)
      (useToolAction "t") 5 (initContext []) 0).result =
      Except.ok [("error", Value.str "Error executing tool t: boom")] ∧
    (run_steps (svcWithTool "t" (failTool "boom") 5) (constReasoning 1)
      (useToolAction "t") 5 (initContext []) 0).context.last_observation =
      (initContext []).last_observation ∧
    (run_steps (svcWithTool "t" (failTool "boom") 5) (constReasoning 1)
      (useToolAction "t") 5 (initContext []) 0).context.intermediate_results =
      (initContext []).intermediate_results ∧
    (run_steps (svcWithTool "t" (failTool "boom") 5) (constReasoning 1)
      (useToolAction "t") 5 (initContext []) 0).counts = ⟨1, 1, 1⟩ :=
  claim_c4_tool_exception (svcWithTool "t" (failTool "boom") 5)
    (constReasoning 1) (useToolAction "t") 4 (initContext []) 0 "t"
    (failTool "boom") "boom" ⟨by decide, by decide⟩ rfl rfl (by decide) rfl rfl

/-- C5, counterexample: an action whose tag is neither use_tool nor finish
is not rejected. With an unrecognized tag on cycle one and a finish on
cycle two, the run silently continues past the first cycle and returns the
second cycle's output as a success, with two full cycles counted — there is
no ActionValidationError-style result. -/
theorem claim_c5_counterexample :
    (run_agent ⟨[], 3⟩ "agent-1" defaultAgent [] (constReasoning 1)
      (mixedActions demoOutput)).result = Except.ok demoOutput ∧
    (run_agent ⟨[], 3⟩ "agent-1" defaultAgent [] (constReasoning 1)
      (mixedActions demoOutput)).counts = ⟨2, 2, 0⟩ :=
  ⟨rfl, rfl⟩

/-- C5, amended: a cycle whose action matches neither branch (tag not
finish and not a use_tool with a truthy tool name) performs no action and
the loop silently continues to the next cycle; no validation failure is
produced for an unrecognized tag. -/
theorem claim_c5_unrecognized_continues (svc : AgentRunnerService)
    (rO : Nat → AgentReasoning) (aO : Nat → AgentAction) (fuel : Nat)
    (ctx : RunContext) (step : Nat)
    (hv : 0 ≤ (rO (step + 1)).confidence ∧ (rO (step + 1)).confidence ≤ 1)
    (hty : (aO (step + 1)).action_type ≠ "finish")
    (hno : (aO (step + 1)).action_type ≠ "use_tool" ∨
           (aO (step + 1)).tool_name = none ∨
           (aO (step + 1)).tool_name = some "") :
    run_steps svc rO aO (fuel + 1) ctx step =
      ⟨(run_steps svc rO aO fuel { ctx with current_step := step + 1 }
          (step + 1)).result,
       (run_steps svc rO aO fuel { ctx with current_step := step + 1 }
          (step + 1)).context,
       ⟨1, 1, 0⟩ + (run_steps svc rO aO fuel { ctx with current_step := step + 1 }
          (step + 1)).counts⟩ := by
  rw [run_steps_succ_next svc rO aO fuel ctx step _ _
    (run_cycle_fallthrough svc rO aO ctx step hv hty hno)]

/-- C5, witness: the amended claim at the concrete run whose first action
carries the unrecognized tag explore. -/
theorem claim_c5_witness :
    run_steps (⟨[], 3⟩ : AgentRunnerService) (constReasoning 1)
      (mixedActions demoOutput) 3 (initContext []) 0 =
      ⟨(run_steps ⟨[], 3⟩ (constReasoning 1) (mixedActions demoOutput) 2
          { initContext [] with current_step := 1 } 1).result,
       (run_steps ⟨[], 3⟩ (constReasoning 1) (mixedActions demoOutput) 2
          { initContext [] with current_step := 1 } 1).context,
       ⟨1, 1, 0⟩ + (run_steps ⟨[], 3⟩ (constReasoning 1) (mixedActions demoOutput) 2
          { initContext [] with current_step := 1 } 1).counts⟩ :=
  claim_c5_unrecognized_continues ⟨[], 3⟩ (constReasoning 1)
    (mixedActions demoOutput) 2 (initContext []) 0 ⟨by decide, by decide⟩
    (by decide) (Or.inl (by decide))

/-- C6: a cycle that selects a tool name absent from the registry
terminates the run immediately (only this cycle is counted, no tool is
invoked) with the ErrorResult whose message names the missing tool and
lists the registered tool names. -/
theorem claim_c6_tool_not_found (svc : AgentRunnerService)
    (rO : Nat → AgentReasoning) (aO : Nat → AgentAction) (fuel : Nat)
    (ctx : RunContext) (step : Nat) (nm : String)
    (hv : 0 ≤ (rO (step + 1)).confidence ∧ (rO (step + 1)).confidence ≤ 1)
    (hty : (aO (step + 1)).action_type = "use_tool")
    (hnm : (aO (step + 1)).tool_name = some nm)
    (hne : ¬ nm = "")
    (hlook : lookupTool svc.tools nm = none) :
    (run_steps svc rO aO (fuel + 1) ctx step).result =
      Except.ok [("error", Value.str ("Tool \x27" ++ nm ++
        "\x27 not found. Available tools: " ++
        pyStrList (toolNames svc.tools)))] ∧
    (run_steps svc rO aO (fuel + 1) ctx step).counts = ⟨1, 1, 0⟩ := by
  rw [run_steps_succ_halt svc rO aO fuel ctx step _ _ _
    (run_cycle_notfound svc rO aO ctx step nm hv hty hnm hne hlook)]
  exact ⟨rfl, rfl⟩

/-- C6, witness: the concrete run that asks for the unregistered tool t
while only other is registered. -/
theorem claim_c6_witness :
    (run_steps (svcWithTool "other" okTool 5) (constReasoning 1)
      (useToolAction "t") 5 (initContext []) 0).result =
      Except.ok [("error", Value.str
        "Tool \x27t\x27 not found. Available tools: [\x27other\x27]")] ∧
    (run_steps (svcWithTool "other" okTool 5) (constReasoning 1)
      (useToolAction "t") 5 (initContext []) 0).counts = ⟨1, 1, 0⟩ :=
  claim_c6_tool_not_found (svcWithTool "other" okTool 5) (constReasoning 1)
    (useToolAction "t") 4 (initContext []) 0 "t" ⟨by decide, by decide⟩
    rfl rfl (by decide) rfl

/-- C7: a decision oracle that finishes on the first cycle with the demo
output makes run_agent return exactly that mapping, after exactly one
reasoning call, one decision call and zero tool invocations. -/
theorem claim_c7_finish_first (svc : AgentRunnerService) (agent_id : String)
    (agent : AgentConfig) (input : List (String × Value))
    (rO : Nat → AgentReasoning) (aO : Nat → AgentAction)
    (hv : 0 ≤ (rO 1).confidence ∧ (rO 1).confidence ≤ 1)
    (hty : (aO 1).action_type = "finish")
    (hout : (aO 1).output = some demoOutput)
    (hms : 1 ≤ svc.max_steps) :
    (run_agent svc agent_id agent input rO aO).result = Except.ok demoOutput ∧
    (run_agent svc agent_id agent input rO aO).counts = ⟨1, 1, 0⟩ := by
  obtain ⟨n, hn⟩ : ∃ n, svc.max_steps = n + 1 := ⟨svc.max_steps - 1, by omega⟩
  unfold run_agent
  rw [hn]
  rw [run_steps_succ_halt svc rO aO n (initContext input) 0 _ _ _
    (run_cycle_finish svc rO aO (initContext input) 0 hv hty)]
  exact ⟨by simp [hout, pyOrEmpty], rfl⟩

/-- C7, witness: the concrete first-cycle finish run. -/
theorem claim_c7_witness :
    (run_agent emptyService "agent-1" defaultAgent [] (constReasoning 1)
      (finishAction (some demoOutput))).result = Except.ok demoOutput ∧
    (run_agent emptyService "agent-1" defaultAgent [] (constReasoning 1)
      (finishAction (some demoOutput))).counts = ⟨1, 1, 0⟩ :=
  claim_c7_finish_first emptyService "agent-1" defaultAgent []
    (constReasoning 1) (finishAction (some demoOutput))
    ⟨by decide, by decide⟩ rfl rfl (by decide)

/-- C8: a reasoning response whose confidence lies outside the closed unit
interval is rejected by validation before the decision oracle is consulted:
the cycle raises the validation failure (no clamping into range), with zero
decision-oracle calls and zero tool invocations from that cycle on. -/
theorem claim_c8_confidence_rejected (svc : AgentRunnerService)
    (rO : Nat → AgentReasoning) (aO : Nat → AgentAction) (fuel : Nat)
    (ctx : RunContext) (step : Nat)
    (hbad : (rO (step + 1)).confidence < 0 ∨ 1 < (rO (step + 1)).confidence) :
    (run_steps svc rO aO (fuel + 1) ctx step).result =
      Except.error "Confidence must be between 0.0 and 1.0" ∧
    (run_steps svc rO aO (fuel + 1) ctx step).counts.action_calls = 0 ∧
    (run_steps svc rO aO (fuel + 1) ctx step).counts.tool_calls = 0 := by
  rw [run_steps_succ_halt svc rO aO fuel ctx step _ _ _
    (run_cycle_raise svc rO aO ctx step hbad)]
  exact ⟨rfl, rfl, rfl⟩

/-- C8, witness: a first-cycle reasoning response with confidence 2 raises
before any decision-oracle call. -/
theorem claim_c8_witness :
    (run_steps emptyService (constReasoning 2)
      (finishAction (some demoOutput)) 15 (initContext []) 0).result =
      Except.error "Confidence must be between 0.0 and 1.0" ∧
    (run_steps emptyService (constReasoning 2)
      (finishAction (some demoOutput)) 15 (initContext []) 0).counts.action_calls = 0 ∧
    (run_steps emptyService (constReasoning 2)
      (finishAction (some demoOutput)) 15 (initContext []) 0).counts.tool_calls = 0 :=
  claim_c8_confidence_rejected emptyService (constReasoning 2)
    (finishAction (some demoOutput)) 14 (initContext []) 0
    (Or.inr (by decide))

/-- C9: the controller is deterministic in the oracle responses — with the
same service (tools and budget) and the same reasoning, decision and tool
response streams, the returned result and the numbers of oracle and tool
calls are identical whatever the agent id, the agent configuration and the
input payload are: the result is a pure function of the response sequence
and the configuration. -/
theorem claim_c9_deterministic (svc : AgentRunnerService)
    (rO : Nat → AgentReasoning) (aO : Nat → AgentAction)
    (id1 id2 : String) (ag1 ag2 : AgentConfig)
    (in1 in2 : List (String × Value)) :
    (run_agent svc id1 ag1 in1 rO aO).result =
      (run_agent svc id2 ag2 in2 rO aO).result ∧
    (run_agent svc id1 ag1 in1 rO aO).counts =
      (run_agent svc id2 ag2 in2 rO aO).counts :=
  run_steps_ctx_irrel svc rO aO svc.max_steps 0 (initContext in1)
    (initContext in2)

/-- C10: GitHubPRTool.execute never raises — for every parameter mapping
and every behaviour of the HTTP helpers it returns a dict that either has
status error with an error field (missing parameters, unauthenticated
private repository, HTTP errors, any other exception) or status success
with no error field. Consequently, when the tool is registered in the
loop, a cycle that invokes it takes the success path of the tool dispatch:
the returned dict (even an error-status one) is recorded as the
observation in the context and the run continues with the next cycle
instead of terminating with a ToolExecutionError result. -/
theorem claim_c10_github_tool_total (authorized : Bool) (env : GitHubEnv)
    (svc : AgentRunnerService) (rO : Nat → AgentReasoning)
    (aO : Nat → AgentAction) (fuel : Nat) (ctx : RunContext) (step : Nat)
    (nm : String)
    (hv : 0 ≤ (rO (step + 1)).confidence ∧ (rO (step + 1)).confidence ≤ 1)
    (hty : (aO (step + 1)).action_type = "use_tool")
    (hnm : (aO (step + 1)).tool_name = some nm)
    (hne : ¬ nm = "")
    (hlook : lookupTool svc.tools nm = some (githubTool authorized env)) :
    (∀ ps, (dlookup (GitHubPRTool.execute authorized env ps) "status" =
          some (Value.str "error") ∧
        (dlookup (GitHubPRTool.execute authorized env ps) "error").isSome = true) ∨
      (dlookup (GitHubPRTool.execute authorized env ps) "status" =
          some (Value.str "success") ∧
        dlookup (GitHubPRTool.execute authorized env ps) "error" = none)) ∧
    run_cycle svc rO aO ctx step = CycleOutcome.next
      { ctx with
        current_step := step + 1
        last_observation := some (pyStrTop (Value.dict
          (GitHubPRTool.execute authorized env
            (pyOrEmpty (aO (step + 1)).tool_params))))
        intermediate_results := ctx.intermediate_results ++
          [("step_" ++ toString (step + 1), Value.dict
            (GitHubPRTool.execute authorized env
              (pyOrEmpty (aO (step + 1)).tool_params)))] } ⟨1, 1, 1⟩ ∧
    (run_steps svc rO aO (fuel + 1) ctx step).result =
      (run_steps svc rO aO fuel
        { ctx with
          current_step := step + 1
          last_observation := some (pyStrTop (Value.dict
            (GitHubPRTool.execute authorized env
              (pyOrEmpty (aO (step + 1)).tool_params))))
          intermediate_results := ctx.intermediate_results ++
            [("step_" ++ toString (step + 1), Value.dict
              (GitHubPRTool.execute authorized env
                (pyOrEmpty (aO (step + 1)).tool_params)))] }
        (step + 1)).result := by
  have hcyc := run_cycle_tool_ok svc rO aO ctx step nm
    (githubTool authorized env)
    (Value.dict (GitHubPRTool.execute authorized env
      (pyOrEmpty (aO (step + 1)).tool_params)))
    hv hty hnm hne hlook rfl
  refine ⟨fun ps => execute_shape authorized env ps, hcyc, ?_⟩
  rw [run_steps_succ_next svc rO aO fuel ctx step _ _ hcyc]

/-- C10, witness: the concrete cycle that invokes the registered GitHub
tool with an empty parameter dict against an environment whose HTTP
helpers all raise — execute returns the missing-parameters error dict, the
cycle records it as the observation and the run continues. -/
theorem claim_c10_witness :
    (∀ ps, (dlookup (GitHubPRTool.execute false failingEnv ps) "status" =
          some (Value.str "error") ∧
        (dlookup (GitHubPRTool.execute false failingEnv ps) "error").isSome = true) ∨
      (dlookup (GitHubPRTool.execute false failingEnv ps) "status" =
          some (Value.str "success") ∧
        dlookup (GitHubPRTool.execute false failingEnv ps) "error" = none)) ∧
    run_cycle (svcWithTool "github_pr_tool" (githubTool false failingEnv) 3)
      (constReasoning 1) (useToolAction "github_pr_tool") (initContext []) 0 =
      CycleOutcome.next
        { initContext [] with
          current_step := 1
          last_observation := some (pyStrTop (Value.dict
            (GitHubPRTool.execute false failingEnv [])))
          intermediate_results := [("step_1", Value.dict
            (GitHubPRTool.execute false failingEnv []))] } ⟨1, 1, 1⟩ ∧
    (run_steps (svcWithTool "github_pr_tool" (githubTool false failingEnv) 3)
      (constReasoning 1) (useToolAction "github_pr_tool") 3
      (initContext []) 0).result =
      (run_steps (svcWithTool "github_pr_tool" (githubTool false failingEnv) 3)
        (constReasoning 1) (useToolAction "github_pr_tool") 2
        { initContext [] with
          current_step := 1
          last_observation := some (pyStrTop (Value.dict
            (GitHubPRTool.execute false failingEnv [])))
          intermediate_results := [("step_1", Value.dict
            (GitHubPRTool.execute false failingEnv []))] } 1).result :=
  claim_c10_github_tool_total false failingEnv
    (svcWithTool "github_pr_tool" (githubTool false failingEnv) 3)
    (constReasoning 1) (useToolAction "github_pr_tool") 2 (initContext []) 0
    "github_pr_tool" ⟨by decide, by decide⟩ rfl rfl (by decide) rfl

end ReactAgent
